import Mathlib

/-!
Verification of the ShipControlWsClient core (signalk-shipcontrol).

The development embeds, in Lean, the WebSocket client class of
`src/shipcontrol-ws-client.ts`: the wire-message shapes, the two record
translators, the message-handling pipeline (store update and listener
dispatch), and the session state machine (connect, open, close,
disconnect, heartbeat and data-request timers, reconnect scheduling).

JavaScript numbers are modelled as rationals; where a field may be
absent on the wire (the TS interface declares `number` but the cast
from raw JSON is unchecked) it is modelled as an `Option`, and the
JavaScript arithmetic on a possibly-absent value (`undefined / 255`
evaluates to `NaN`) is made explicit via a small value type that also
carries `null`, so that "the translator yields null" is statable.
-/

namespace ShipControl

/-- Value of the `stateOfCharge` field of the canonical battery record:
a JavaScript number (`num`), the JavaScript `NaN` that results from
dividing `undefined` by a number, or `null`.  The source translator
only ever produces `num` or `nan`; `null` exists so the wording of the specification made
"missing/zero raw value must translate to null" is statable. -/
inductive SocValue
  | num (q : ℚ)
  | nan
  | null
deriving DecidableEq, Repr

/-- `interface TankLevelMessage extends ShipControlMessage` with
`class` equal to `Tank` (the discriminator is carried by the
`ShipControlMessage` inductive below). -/
structure TankLevelMessage where
  is_alived : Bool
  obj_kind : String
  tank_auto_switch_mode : Bool
  tank_capacity : ℚ
  tank_level : ℚ
  tank_module_id : ℚ
  tank_type : String
  tank_valve_state : String
deriving DecidableEq, Repr

/-- `interface BatteryMessage extends ShipControlMessage` with
`class` equal to `Battery`.  `battery_state_of_charge` is declared `number` in
the TS interface, but the value cast from raw JSON may be absent; the
claims quantify over that case, so it is modelled as `Option ℚ`
(`none` = the field is missing or non-numeric, i.e. `undefined` after
the cast). -/
structure BatteryMessage where
  is_alived : Bool
  obj_kind : String
  battery_autonomy : ℚ
  battery_available_capacity : ℚ
  battery_current : ℚ
  battery_dischargeable_ah : ℚ
  battery_health_level : String
  battery_manufacturer : String
  battery_module_id : ℚ
  battery_nb_of_ibs : ℚ
  battery_nominal_capacity : ℚ
  battery_state_of_charge : Option ℚ
  battery_state_of_health : ℚ
  battery_temperature : ℚ
  battery_temperature_level : String
  battery_type : String
  battery_type_of_battery : String
  battery_voltage_level : ℚ
  module_name : String
  offloading_max : ℚ
  offloading_min : ℚ
  offloading_time : String
  offloading_value : ℚ
deriving DecidableEq, Repr

/-- canonical `TankInformationRecord`. -/
structure TankInformationRecord where
  name : String
  level : ℚ
  capacity : ℚ
  autoSwitchMode : Bool
  valveState : String
  moduleId : ℚ
deriving DecidableEq, Repr

/-- canonical `BatteryInformationRecord`. -/
structure BatteryInformationRecord where
  name : String
  voltage : ℚ
  current : ℚ
  stateOfCharge : SocValue
  healthLevel : String
  moduleId : ℚ
deriving DecidableEq, Repr

/-- a decoded `ShipControlMessage`, classified by its `class`
discriminator as the `switch` in `handleShipControlMessage` does:
`Tank`, `Battery`, or anything else (including JSON values that
are not objects, whose `class` access yields `undefined`). -/
inductive ShipControlMessage
  | tank (m : TankLevelMessage)
  | battery (m : BatteryMessage)
  | other (cls : Option String)
deriving DecidableEq, Repr

/-- outcome of `JSON.parse` on a raw text frame: either the parse threw
(`notJson`, carrying the original text), or it yielded a value whose
classification is a `ShipControlMessage`. -/
inductive InFrame
  | notJson (s : String)
  | parsed (m : ShipControlMessage)
deriving DecidableEq, Repr

/-- `convertTankLevelMessageToTankInformation`: a verbatim field copy,
with `name` taken from the `tank_type` discriminator. -/
def convertTankLevelMessageToTankInformation
    (tankLevelMessage : TankLevelMessage) : TankInformationRecord :=
  { name := tankLevelMessage.tank_type
    level := tankLevelMessage.tank_level
    capacity := tankLevelMessage.tank_capacity
    autoSwitchMode := tankLevelMessage.tank_auto_switch_mode
    valveState := tankLevelMessage.tank_valve_state
    moduleId := tankLevelMessage.tank_module_id }

/-- JavaScript semantics of `battery_state_of_charge / 255` when the
raw field may be absent: a present number divides exactly, an absent
field (`undefined`) divides to `NaN`. -/
def socDiv255 : Option ℚ → SocValue
  | some q => SocValue.num (q / 255)
  | none => SocValue.nan

/-- `convertBatteryMessageToBatterInformationRecord`: verbatim copies
of voltage, current, health level and module id, `name` from
`battery_type`, and `stateOfCharge` computed as
`batteryMessage.battery_state_of_charge / 255` with no guard. -/
def convertBatteryMessageToBatterInformationRecord
    (batteryMessage : BatteryMessage) : BatteryInformationRecord :=
  { name := batteryMessage.battery_type
    voltage := batteryMessage.battery_voltage_level
    current := batteryMessage.battery_current
    stateOfCharge := socDiv255 batteryMessage.battery_state_of_charge
    healthLevel := batteryMessage.battery_health_level
    moduleId := batteryMessage.battery_module_id }

/-- readyState of a `ws` WebSocket object. -/
inductive ReadyState
  | CONNECTING
  | OPEN
  | CLOSING
  | CLOSED
deriving DecidableEq, Repr

/-- the part of a WebSocket handle the client reads. -/
structure Socket where
  readyState : ReadyState
deriving DecidableEq, Repr

/-- frames the client sends: the literal keep-alive token `ALIVE`,
or the JSON object with fields `cmd` (always `fetch_map`), `params`
and `callback_id`. -/
inductive OutFrame
  | alive
  | fetchMap (params : String) (callback_id : ℕ)
deriving DecidableEq, Repr

/-- observable effects of one handler run: a frame written to the
socket, a line on the error sink, a store write, or a listener
dispatch (dispatch of one record to the whole listener list; the
per-listener refinement is modelled separately below). -/
inductive Output
  | send (f : OutFrame)
  | errorLog
  | storeTank (key : String) (r : TankInformationRecord)
  | storeBattery (key : String) (r : BatteryInformationRecord)
  | notifyTank (r : TankInformationRecord)
  | notifyBattery (r : BatteryInformationRecord)
deriving DecidableEq, Repr

/-- mutable fields of `ShipControlWsClient`.  Interval handles are
modelled by whether a handle is set (`setInterval` result stored in
the field vs `null`); `pendingReconnect` records an outstanding
`setTimeout(() => this.connect(), RECONNECT_DELAY_MS)`.  The two
stores are the object maps keyed by reading name. -/
structure ClientState where
  socket : Option Socket
  heartbeatInterval : Bool
  tankInformationRequestInterval : Bool
  batteryInformationRequestInterval : Bool
  pendingReconnect : Bool
  tankInformationStore : String → Option TankInformationRecord
  batteryInformationStore : String → Option BatteryInformationRecord

/-- state of a freshly constructed client: no socket, no timers, empty
stores. -/
def initState : ClientState :=
  { socket := none
    heartbeatInterval := false
    tankInformationRequestInterval := false
    batteryInformationRequestInterval := false
    pendingReconnect := false
    tankInformationStore := fun _ => none
    batteryInformationStore := fun _ => none }

/-- events driving the client: the two public calls, the transport
events delivered to the handlers registered in `connect()`, and the
firing of each scheduled timer.  A timer event on a timer whose handle
is not set is a no-op (the callback does not exist). -/
inductive Event
  | connectCall
  | openEvt
  | closeEvt
  | messageEvt (f : InFrame)
  | disconnectCall
  | heartbeatFire
  | tankRequestFire
  | batteryRequestFire
  | reconnectFire
deriving DecidableEq, Repr

/-- guard common to the three timer callbacks:
`this.socket && this.socket.readyState === WebSocket.OPEN`. -/
def socketOpen (st : ClientState) : Bool :=
  match st.socket with
  | some s => decide (s.readyState = ReadyState.OPEN)
  | none => false

/-- `handleTankMessage`: convert, store under `tank_type`, then notify
the tank listeners. -/
def handleTankMessage (st : ClientState) (tankLevelMessage : TankLevelMessage) :
    ClientState × List Output :=
  let tankInformation := convertTankLevelMessageToTankInformation tankLevelMessage
  ({ st with
      tankInformationStore := fun k =>
        if k = tankLevelMessage.tank_type then some tankInformation
        else st.tankInformationStore k },
   [Output.storeTank tankLevelMessage.tank_type tankInformation,
    Output.notifyTank tankInformation])

/-- `handleBatteryMessage`: convert, store under the `name` of the record,
then notify the battery listeners. -/
def handleBatteryMessage (st : ClientState) (batteryMessage : BatteryMessage) :
    ClientState × List Output :=
  let battteryInformation := convertBatteryMessageToBatterInformationRecord batteryMessage
  ({ st with
      batteryInformationStore := fun k =>
        if k = battteryInformation.name then some battteryInformation
        else st.batteryInformationStore k },
   [Output.storeBattery battteryInformation.name battteryInformation,
    Output.notifyBattery battteryInformation])

/-- `handleShipControlMessage`: switch on `message.class`; `Tank` and
`Battery` are handled, every other class falls through the switch
(silently dropped). -/
def handleShipControlMessage (st : ClientState) (message : ShipControlMessage) :
    ClientState × List Output :=
  match message with
  | ShipControlMessage.tank m => handleTankMessage st m
  | ShipControlMessage.battery m => handleBatteryMessage st m
  | ShipControlMessage.other _ => (st, [])

/-- `handleMessage`: try `JSON.parse`; on success hand the value to
`handleShipControlMessage`; on parse failure report an error unless the
text is the keep-alive token `ALIVE`. -/
def handleMessage (st : ClientState) (f : InFrame) : ClientState × List Output :=
  match f with
  | InFrame.parsed m => handleShipControlMessage st m
  | InFrame.notJson data =>
      if data = "ALIVE" then (st, []) else (st, [Output.errorLog])

/-- one event of the client.  Transcribed handler by handler:
`connect()` replaces the socket with a new connecting one; the `open`
handler starts the heartbeat and the tank-information request timers
(it does not start the battery-information request timer — source
defines `startBatteryInformationRequest` but never calls it); the
`close` handler logs, stops the heartbeat and tank timers, and, when
`this.socket` is non-null, schedules a reconnect; `disconnect()` closes
the socket via optional chaining and nulls the handle, cancelling no
timer; each timer callback sends only behind the open-socket guard; the
pending reconnect timeout re-invokes `connect()`. -/
def step (st : ClientState) (e : Event) : ClientState × List Output :=
  match e with
  | Event.connectCall =>
      ({ st with socket := some { readyState := ReadyState.CONNECTING } }, [])
  | Event.openEvt =>
      ({ st with
          socket := st.socket.map fun s => { s with readyState := ReadyState.OPEN }
          heartbeatInterval := true
          tankInformationRequestInterval := true }, [])
  | Event.closeEvt =>
      let st1 : ClientState := { st with
        socket := st.socket.map fun s => { s with readyState := ReadyState.CLOSED }
        heartbeatInterval := false
        tankInformationRequestInterval := false }
      if st1.socket.isSome then ({ st1 with pendingReconnect := true }, [Output.errorLog])
      else (st1, [Output.errorLog])
  | Event.messageEvt f => handleMessage st f
  | Event.disconnectCall =>
      ({ st with socket := none }, [])
  | Event.heartbeatFire =>
      if st.heartbeatInterval then
        if socketOpen st then (st, [Output.send OutFrame.alive]) else (st, [])
      else (st, [])
  | Event.tankRequestFire =>
      if st.tankInformationRequestInterval then
        if socketOpen st then (st, [Output.send (OutFrame.fetchMap "Tanks" 1)]) else (st, [])
      else (st, [])
  | Event.batteryRequestFire =>
      if st.batteryInformationRequestInterval then
        if socketOpen st then (st, [Output.send (OutFrame.fetchMap "Battery" 2)]) else (st, [])
      else (st, [])
  | Event.reconnectFire =>
      if st.pendingReconnect then
        ({ st with
            pendingReconnect := false
            socket := some { readyState := ReadyState.CONNECTING } }, [])
      else (st, [])

/-- run a sequence of events, concatenating the outputs. -/
def run (st : ClientState) : List Event → ClientState × List Output
  | [] => (st, [])
  | e :: rest =>
      let p := step st e
      let q := run p.1 rest
      (q.1, p.2 ++ q.2)

/-- behaviour of one subscriber callback on invocation: returns
normally, or throws an uncaught fault. -/
inductive ListenerBehavior
  | ok
  | throws
deriving DecidableEq, Repr

/-- semantics of `listeners.forEach((listener) => listener(record))`,
the body of the three notify functions, recorded per listener: returns
the zero-based indices of the callbacks actually invoked, and whether
an uncaught fault escaped the loop.  `Array.prototype.forEach` does not
catch: the throwing callback is the last one invoked and its fault
aborts the iteration. -/
def forEachDispatch : ℕ → List ListenerBehavior → List ℕ × Bool
  | _, [] => ([], false)
  | i, ListenerBehavior.ok :: rest =>
      let p := forEachDispatch (i + 1) rest
      (i :: p.1, p.2)
  | i, ListenerBehavior.throws :: _ => ([i], true)

/-- one recognized tank frame traversing `handleMessage` with the given
subscriber list: `notifyTankInformationUpdateListeners` runs inside the
`try` of `handleMessage`, so a fault escaping `forEach` is caught
there; the frame text is JSON hence not the `ALIVE` token, so the
catch reports exactly one error.  Result: (indices of invoked
listeners, number of error reports, whether the fault escaped
`handleMessage` and crashed the client). -/
def handleTankFrameWithListeners (listeners : List ListenerBehavior) :
    List ℕ × ℕ × Bool :=
  let p := forEachDispatch 0 listeners
  (p.1, if p.2 then 1 else 0, false)

/-- concrete tank message of the specification scenario. -/
def tankScenario : TankLevelMessage :=
  { is_alived := true
    obj_kind := ""
    tank_auto_switch_mode := false
    tank_capacity := 200
    tank_level := 42
    tank_module_id := 1
    tank_type := "EP_1"
    tank_valve_state := "CLOSED" }

/-- concrete battery message of the specification scenario (voltage
12.6 = 63/5, current -3.2 = -16/5, raw state of charge 191). -/
def batteryScenario : BatteryMessage :=
  { is_alived := true
    obj_kind := ""
    battery_autonomy := 0
    battery_available_capacity := 0
    battery_current := -16 / 5
    battery_dischargeable_ah := 0
    battery_health_level := "GREEN"
    battery_manufacturer := ""
    battery_module_id := 2
    battery_nb_of_ibs := 0
    battery_nominal_capacity := 0
    battery_state_of_charge := some 191
    battery_state_of_health := 0
    battery_temperature := 0
    battery_temperature_level := ""
    battery_type := "GE_TD"
    battery_type_of_battery := ""
    battery_voltage_level := 63 / 5
    module_name := ""
    offloading_max := 0
    offloading_min := 0
    offloading_time := ""
    offloading_value := 0 }

/-- the scenario battery message with raw state of charge zero. -/
def batteryZeroSoc : BatteryMessage :=
  { batteryScenario with battery_state_of_charge := some 0 }

/-- the scenario battery message with the raw state of charge absent. -/
def batteryMissingSoc : BatteryMessage :=
  { batteryScenario with battery_state_of_charge := none }

/-! Claims about the record translators. -/

/-- Claim C1, counterexample: the claim says a zero or absent raw
`battery_state_of_charge` translates to a null (unknown) state of
charge, never NaN and never a zero ratio.  On the concrete scenario
message with raw value `0` the translator yields the zero ratio
`num 0`, not null; with the raw value absent it yields NaN. -/
theorem C1_soc_counterexample :
    (convertBatteryMessageToBatterInformationRecord batteryZeroSoc).stateOfCharge
        = SocValue.num 0 ∧
    (convertBatteryMessageToBatterInformationRecord batteryZeroSoc).stateOfCharge
        ≠ SocValue.null ∧
    (convertBatteryMessageToBatterInformationRecord batteryMissingSoc).stateOfCharge
        = SocValue.nan := by
  refine ⟨?_, by decide, rfl⟩
  simp [convertBatteryMessageToBatterInformationRecord, socDiv255, batteryZeroSoc,
    batteryScenario]

/-- Claim C1, amended: the translator divides the raw
`battery_state_of_charge` by 255 with no guard, so a zero raw value
yields the zero ratio `num 0`, an absent raw value yields NaN, and a
null (unknown) state of charge is never produced. -/
theorem C1_soc_unguarded (b : BatteryMessage) :
    (b.battery_state_of_charge = some 0 →
      (convertBatteryMessageToBatterInformationRecord b).stateOfCharge = SocValue.num 0) ∧
    (b.battery_state_of_charge = none →
      (convertBatteryMessageToBatterInformationRecord b).stateOfCharge = SocValue.nan) ∧
    (convertBatteryMessageToBatterInformationRecord b).stateOfCharge ≠ SocValue.null := by
  refine ⟨fun h => ?_, fun h => ?_, ?_⟩
  · simp [convertBatteryMessageToBatterInformationRecord, socDiv255, h]
  · simp [convertBatteryMessageToBatterInformationRecord, socDiv255, h]
  · cases hb : b.battery_state_of_charge <;>
      simp [convertBatteryMessageToBatterInformationRecord, socDiv255, hb]

/-- witness for C1: the amended statement instantiated on the two
concrete messages with raw state of charge zero and absent. -/
theorem C1_soc_unguarded_witness :
    (convertBatteryMessageToBatterInformationRecord batteryZeroSoc).stateOfCharge
        = SocValue.num 0 ∧
    (convertBatteryMessageToBatterInformationRecord batteryMissingSoc).stateOfCharge
        = SocValue.nan :=
  ⟨(C1_soc_unguarded batteryZeroSoc).1 rfl,
   (C1_soc_unguarded batteryMissingSoc).2.1 rfl⟩

/-- Claim C2: a battery message with a present numeric raw state of
charge translates to the record with state of charge raw/255 and with
voltage, current, health level, module id and name copied verbatim
from `battery_voltage_level`, `battery_current`,
`battery_health_level`, `battery_module_id` and `battery_type`. -/
theorem C2_battery_translation_verbatim (b : BatteryMessage) (q : ℚ)
    (hq : b.battery_state_of_charge = some q) :
    convertBatteryMessageToBatterInformationRecord b =
      { name := b.battery_type
        voltage := b.battery_voltage_level
        current := b.battery_current
        stateOfCharge := SocValue.num (q / 255)
        healthLevel := b.battery_health_level
        moduleId := b.battery_module_id } := by
  simp [convertBatteryMessageToBatterInformationRecord, socDiv255, hq]

/-- witness for C2: the specification scenario message (raw 191,
voltage 12.6, current -3.2) yields state of charge 191/255. -/
theorem C2_battery_translation_verbatim_witness :
    batteryScenario.battery_state_of_charge = some 191 ∧
    convertBatteryMessageToBatterInformationRecord batteryScenario =
      { name := "GE_TD"
        voltage := 63 / 5
        current := -16 / 5
        stateOfCharge := SocValue.num (191 / 255)
        healthLevel := "GREEN"
        moduleId := 2 } :=
  ⟨rfl, C2_battery_translation_verbatim batteryScenario 191 rfl⟩

/-- Claim C5: a decoded tank frame dispatched through the message
pipeline notifies subscribers with a record whose level, capacity,
autoSwitchMode, valveState and moduleId equal the source message fields `tank_level`,
`tank_capacity`, `tank_auto_switch_mode`, `tank_valve_state` and
`tank_module_id` verbatim, and whose name equals the `tank_type`
discriminator. -/
theorem C5_tank_translation_verbatim (st : ClientState) (t : TankLevelMessage) :
    (step st (Event.messageEvt (InFrame.parsed (ShipControlMessage.tank t)))).2 =
      [Output.storeTank t.tank_type (convertTankLevelMessageToTankInformation t),
       Output.notifyTank
         { name := t.tank_type
           level := t.tank_level
           capacity := t.tank_capacity
           autoSwitchMode := t.tank_auto_switch_mode
           valveState := t.tank_valve_state
           moduleId := t.tank_module_id }] := rfl

/-! Claims about the message pipeline and listener dispatch. -/

/-- shifting a consed index range by one. -/
theorem range_map_add_shift (i n : ℕ) :
    i :: (List.range (n + 1)).map ((i + 1) + ·) = (List.range (n + 2)).map (i + ·) := by
  show i :: (List.range (n + 1)).map ((i + 1) + ·)
      = (List.range ((n + 1) + 1)).map (i + ·)
  conv_rhs => rw [List.range_succ_eq_map]
  simp only [List.map_cons, Nat.add_zero, List.map_map]
  refine congrArg (i :: ·) (List.map_congr_left fun x _ => ?_)
  simp only [Function.comp_apply]
  omega

/-- an all-ok initial segment of the listener list is invoked in order together
with the throwing listener, and the fault escapes the loop. -/
theorem forEachDispatch_ok_before_throw (pre post : List ListenerBehavior) :
    ∀ i, (∀ x ∈ pre, x = ListenerBehavior.ok) →
      forEachDispatch i (pre ++ ListenerBehavior.throws :: post) =
        ((List.range (pre.length + 1)).map (i + ·), true) := by
  induction pre with
  | nil =>
      intro i _
      rfl
  | cons x xs ih =>
      intro i hpre
      have hx : x = ListenerBehavior.ok := hpre x (by simp)
      subst hx
      have hxs : ∀ y ∈ xs, y = ListenerBehavior.ok := fun y hy => hpre y (by simp [hy])
      have hrec := ih (i + 1) hxs
      have hstep :
          forEachDispatch i ((ListenerBehavior.ok :: xs) ++ ListenerBehavior.throws :: post)
            = (i :: (forEachDispatch (i + 1) (xs ++ ListenerBehavior.throws :: post)).1,
               (forEachDispatch (i + 1) (xs ++ ListenerBehavior.throws :: post)).2) := rfl
      rw [hstep, hrec]
      show (i :: (List.range (xs.length + 1)).map ((i + 1) + ·), true)
          = ((List.range (xs.length + 1 + 1)).map (i + ·), true)
      rw [range_map_add_shift]

/-- Claim C4, counterexample: with two tank subscribers where the first
throws, the second (index 1) is never invoked, contradicting the claim
that remaining callbacks still run. -/
theorem C4_listener_fault_counterexample :
    1 ∉ (handleTankFrameWithListeners
          [ListenerBehavior.throws, ListenerBehavior.ok]).1 ∧
    (handleTankFrameWithListeners
          [ListenerBehavior.throws, ListenerBehavior.ok]).1 = [0] := by
  decide

/-- Claim C4, amended: an uncaught fault in a subscriber callback stops
the dispatch loop — the listeners before and including the thrower are
invoked, the remaining ones are not; the fault is caught by the message
surrounding try/catch of the message handler, which reports exactly one error, and
the session state machine does not crash. -/
theorem C4_listener_fault_stops_dispatch (pre post : List ListenerBehavior)
    (hpre : ∀ x ∈ pre, x = ListenerBehavior.ok) :
    handleTankFrameWithListeners (pre ++ ListenerBehavior.throws :: post) =
      (List.range (pre.length + 1), 1, false) := by
  have h := forEachDispatch_ok_before_throw pre post 0 hpre
  simp [handleTankFrameWithListeners, h]

/-- witness for C4: a throwing first listener followed by one healthy
listener — only index 0 is invoked, one error is reported, no crash. -/
theorem C4_listener_fault_stops_dispatch_witness :
    handleTankFrameWithListeners
        (([] : List ListenerBehavior) ++ ListenerBehavior.throws :: [ListenerBehavior.ok]) =
      ([0], 1, false) := by
  simpa using C4_listener_fault_stops_dispatch [] [ListenerBehavior.ok] (by simp)

/-- Claim C6: the keep-alive token produces no error and no
notification; any other non-JSON text produces exactly one error and
no record notification; decodable JSON with an unrecognized class
discriminator is silently dropped — in every case the state is
unchanged and processing returns normally. -/
theorem C6_unrecognized_frames_safe (st : ClientState) (s : String)
    (hs : s ≠ "ALIVE") (cls : Option String) :
    handleMessage st (InFrame.notJson "ALIVE") = (st, []) ∧
    handleMessage st (InFrame.notJson s) = (st, [Output.errorLog]) ∧
    handleMessage st (InFrame.parsed (ShipControlMessage.other cls)) = (st, []) := by
  refine ⟨rfl, ?_, rfl⟩
  simp [handleMessage, hs]

/-- witness for C6: the fresh client state with the text "garbage" and
an unknown class "Position". -/
theorem C6_unrecognized_frames_safe_witness :
    handleMessage initState (InFrame.notJson "ALIVE") = (initState, []) ∧
    handleMessage initState (InFrame.notJson "garbage") = (initState, [Output.errorLog]) ∧
    handleMessage initState (InFrame.parsed (ShipControlMessage.other (some "Position")))
        = (initState, []) :=
  C6_unrecognized_frames_safe initState "garbage" (by decide) (some "Position")

/-- no event removes an entry from either store: a key present before a
step is present after it. -/
theorem step_preserves_store_entries (st : ClientState) (e : Event) (k : String) :
    ((st.tankInformationStore k).isSome →
      ((step st e).1.tankInformationStore k).isSome) ∧
    ((st.batteryInformationStore k).isSome →
      ((step st e).1.batteryInformationStore k).isSome) := by
  cases e with
  | connectCall => exact ⟨id, id⟩
  | openEvt => exact ⟨id, id⟩
  | closeEvt =>
      have h1 : (step st Event.closeEvt).1.tankInformationStore = st.tankInformationStore := by
        simp only [step]
        split <;> rfl
      have h2 :
          (step st Event.closeEvt).1.batteryInformationStore = st.batteryInformationStore := by
        simp only [step]
        split <;> rfl
      rw [h1, h2]
      exact ⟨id, id⟩
  | disconnectCall => exact ⟨id, id⟩
  | heartbeatFire =>
      have h1 : (step st Event.heartbeatFire).1 = st := by
        simp only [step]
        split
        · split <;> rfl
        · rfl
      rw [h1]
      exact ⟨id, id⟩
  | tankRequestFire =>
      have h1 : (step st Event.tankRequestFire).1 = st := by
        simp only [step]
        split
        · split <;> rfl
        · rfl
      rw [h1]
      exact ⟨id, id⟩
  | batteryRequestFire =>
      have h1 : (step st Event.batteryRequestFire).1 = st := by
        simp only [step]
        split
        · split <;> rfl
        · rfl
      rw [h1]
      exact ⟨id, id⟩
  | reconnectFire =>
      have h1 :
          (step st Event.reconnectFire).1.tankInformationStore = st.tankInformationStore := by
        simp only [step]
        split <;> rfl
      have h2 :
          (step st Event.reconnectFire).1.batteryInformationStore
            = st.batteryInformationStore := by
        simp only [step]
        split <;> rfl
      rw [h1, h2]
      exact ⟨id, id⟩
  | messageEvt f =>
      cases f with
      | notJson s =>
          have h1 : (step st (Event.messageEvt (InFrame.notJson s))).1 = st := by
            simp only [step, handleMessage]
            split <;> rfl
          rw [h1]
          exact ⟨id, id⟩
      | parsed m =>
          cases m with
          | tank t =>
              constructor
              · intro h
                simp only [step, handleMessage, handleShipControlMessage, handleTankMessage]
                split <;> simp [h]
              · intro h
                exact h
          | battery b =>
              constructor
              · intro h
                exact h
              · intro h
                simp only [step, handleMessage, handleShipControlMessage, handleBatteryMessage]
                split <;> simp [h]
          | other cls => exact ⟨id, id⟩

/-- Claim C8: a decoded tank or battery message overwrites the store
entry keyed by the name of the reading unconditionally, the store write
precedes the subscriber dispatch in the handler output, and a store
entry present before any event is still present after it. -/
theorem C8_store_update_before_dispatch (st : ClientState)
    (t : TankLevelMessage) (b : BatteryMessage) (e : Event) (k : String)
    (hkt : (st.tankInformationStore k).isSome)
    (hkb : (st.batteryInformationStore k).isSome) :
    ((step st (Event.messageEvt (InFrame.parsed (ShipControlMessage.tank t)))).1.tankInformationStore
        t.tank_type = some (convertTankLevelMessageToTankInformation t) ∧
      (step st (Event.messageEvt (InFrame.parsed (ShipControlMessage.tank t)))).2 =
        [Output.storeTank t.tank_type (convertTankLevelMessageToTankInformation t),
         Output.notifyTank (convertTankLevelMessageToTankInformation t)]) ∧
    ((step st (Event.messageEvt (InFrame.parsed (ShipControlMessage.battery b)))).1.batteryInformationStore
        (convertBatteryMessageToBatterInformationRecord b).name
        = some (convertBatteryMessageToBatterInformationRecord b) ∧
      (step st (Event.messageEvt (InFrame.parsed (ShipControlMessage.battery b)))).2 =
        [Output.storeBattery (convertBatteryMessageToBatterInformationRecord b).name
           (convertBatteryMessageToBatterInformationRecord b),
         Output.notifyBattery (convertBatteryMessageToBatterInformationRecord b)]) ∧
    ((step st e).1.tankInformationStore k).isSome ∧
    ((step st e).1.batteryInformationStore k).isSome := by
  refine ⟨⟨?_, rfl⟩, ⟨?_, rfl⟩, (step_preserves_store_entries st e k).1 hkt,
    (step_preserves_store_entries st e k).2 hkb⟩
  · simp [step, handleMessage, handleShipControlMessage, handleTankMessage]
  · simp [step, handleMessage, handleShipControlMessage, handleBatteryMessage]

/-- witness for C8: the scenario tank and battery messages against a
state already holding an entry under key "EP_1" in both stores. -/
theorem C8_store_update_before_dispatch_witness :
    ((step { initState with
        tankInformationStore := fun k =>
          if k = "EP_1" then some (convertTankLevelMessageToTankInformation tankScenario)
          else none
        batteryInformationStore := fun k =>
          if k = "EP_1" then some (convertBatteryMessageToBatterInformationRecord batteryScenario)
          else none }
      Event.closeEvt).1.tankInformationStore "EP_1").isSome := by
  have h := C8_store_update_before_dispatch
    { initState with
        tankInformationStore := fun k =>
          if k = "EP_1" then some (convertTankLevelMessageToTankInformation tankScenario)
          else none
        batteryInformationStore := fun k =>
          if k = "EP_1" then some (convertBatteryMessageToBatterInformationRecord batteryScenario)
          else none }
    tankScenario batteryScenario Event.closeEvt "EP_1" (by simp) (by simp)
  exact h.2.2.1

/-! Claims about the session state machine. -/

/-- Claim C3, failing trace: after a transport-initiated close has
scheduled a reconnect, a subsequent `disconnect()` leaves that timer
pending (the code cancels no timer in `disconnect`), so the timer fires,
re-invokes `connect`, and once the new socket opens the restarted
heartbeat sends a frame — all after `disconnect()` was called. -/
theorem C3_reconnect_after_disconnect :
    (run initState
        [Event.connectCall, Event.openEvt, Event.closeEvt,
         Event.disconnectCall]).1.pendingReconnect = true ∧
    (run initState
        [Event.connectCall, Event.openEvt, Event.closeEvt, Event.disconnectCall,
         Event.reconnectFire]).1.socket = some { readyState := ReadyState.CONNECTING } ∧
    (run initState
        [Event.connectCall, Event.openEvt, Event.closeEvt, Event.disconnectCall,
         Event.reconnectFire, Event.openEvt, Event.heartbeatFire]).2
      = [Output.errorLog, Output.send OutFrame.alive] :=
  ⟨rfl, rfl, rfl⟩

/-- a step never sets the battery-information request interval once it
is unset, and never emits the battery map request frame. -/
theorem step_battery_request_off (st : ClientState) (e : Event)
    (hb : st.batteryInformationRequestInterval = false) :
    (step st e).1.batteryInformationRequestInterval = false ∧
    Output.send (OutFrame.fetchMap "Battery" 2) ∉ (step st e).2 := by
  cases e with
  | connectCall => exact ⟨hb, by simp [step]⟩
  | openEvt => exact ⟨hb, by simp [step]⟩
  | closeEvt =>
      constructor
      · simp only [step]
        split <;> simpa using hb
      · simp only [step]
        split <;> simp
  | disconnectCall => exact ⟨hb, by simp [step]⟩
  | heartbeatFire =>
      constructor
      · simp only [step]
        split
        · split <;> simpa using hb
        · exact hb
      · simp only [step]
        split
        · split <;> simp
        · simp
  | tankRequestFire =>
      constructor
      · simp only [step]
        split
        · split <;> simpa using hb
        · exact hb
      · simp only [step]
        split
        · split <;> simp
        · simp
  | batteryRequestFire =>
      constructor
      · simp only [step]
        split
        · split <;> simpa using hb
        · exact hb
      · simp only [step, hb]
        simp
  | reconnectFire =>
      constructor
      · simp only [step]
        split <;> simpa using hb
      · simp only [step]
        split <;> simp
  | messageEvt f =>
      cases f with
      | notJson s =>
          constructor
          · simp only [step, handleMessage]
            split <;> simpa using hb
          · simp only [step, handleMessage]
            split <;> simp
      | parsed m =>
          cases m with
          | tank t => exact ⟨hb, by simp [step, handleMessage, handleShipControlMessage,
              handleTankMessage]⟩
          | battery b => exact ⟨hb, by simp [step, handleMessage, handleShipControlMessage,
              handleBatteryMessage]⟩
          | other cls => exact ⟨hb, by simp [step, handleMessage, handleShipControlMessage]⟩

/-- along any event sequence from a state whose battery-request timer
is unset, the timer stays unset and the battery map request frame is
never sent. -/
theorem run_battery_request_off :
    ∀ (evs : List Event) (st : ClientState),
      st.batteryInformationRequestInterval = false →
      (run st evs).1.batteryInformationRequestInterval = false ∧
      Output.send (OutFrame.fetchMap "Battery" 2) ∉ (run st evs).2 := by
  intro evs
  induction evs with
  | nil =>
      intro st hb
      exact ⟨hb, by simp [run]⟩
  | cons e rest ih =>
      intro st hb
      have hstep := step_battery_request_off st e hb
      have hrec := ih (step st e).1 hstep.1
      constructor
      · simpa [run] using hrec.1
      · simp only [run, List.mem_append, not_or]
        exact ⟨hstep.2, hrec.2⟩

/-- Claim C7: the transport open handler starts the heartbeat timer and
the tank map request timer, but not the battery map request timer —
`startBatteryInformationRequest` is defined in the source yet never
called, so along every event sequence of a fresh client the battery
request interval stays unset and the frame
`fetch_map / Battery / callback_id 2` is never sent. -/
theorem C7_open_starts_heartbeat_and_tank_only :
    (∀ st : ClientState,
      (step st Event.openEvt).1.heartbeatInterval = true ∧
      (step st Event.openEvt).1.tankInformationRequestInterval = true ∧
      (step st Event.openEvt).1.batteryInformationRequestInterval
        = st.batteryInformationRequestInterval ∧
      (step st Event.openEvt).2 = []) ∧
    (∀ evs : List Event,
      (run initState evs).1.batteryInformationRequestInterval = false ∧
      Output.send (OutFrame.fetchMap "Battery" 2) ∉ (run initState evs).2) := by
  constructor
  · intro st
    exact ⟨rfl, rfl, rfl, rfl⟩
  · intro evs
    exact run_battery_request_off evs initState rfl

/-- Claim C9: `disconnect()` is idempotent — a second call is a no-op
on an already-disconnected client, the socket handle is released, and
the call produces no output (no frame, no fault). -/
theorem C9_disconnect_idempotent (st : ClientState) :
    step (step st Event.disconnectCall).1 Event.disconnectCall
      = step st Event.disconnectCall ∧
    (step st Event.disconnectCall).1.socket = none ∧
    (step st Event.disconnectCall).2 = [] :=
  ⟨rfl, rfl, rfl⟩

/-- Claim C10: each timer callback (heartbeat, tank request, battery
request) sends only behind the guard that the socket handle is non-null
with readyState OPEN; when the guard fails the callback sends nothing,
raises nothing, and leaves the state unchanged. -/
theorem C10_timer_send_guard (st : ClientState) (e : Event)
    (he : e = Event.heartbeatFire ∨ e = Event.tankRequestFire ∨
      e = Event.batteryRequestFire) :
    (socketOpen st = false → (step st e).2 = []) ∧
    (∀ f, Output.send f ∈ (step st e).2 → socketOpen st = true) ∧
    (step st e).1 = st := by
  rcases he with h | h | h <;> subst h <;> refine ⟨fun hso => ?_, fun f hf => ?_, ?_⟩
  all_goals first
    | (simp only [step]
       split
       · simp [hso]
       · rfl)
    | (simp only [step]
       split
       · split <;> rfl
       · rfl)
    | (by_cases hso2 : socketOpen st = true
       · exact hso2
       · exfalso
         have hso3 : socketOpen st = false := by
           cases hq : socketOpen st
           · rfl
           · exact absurd hq hso2
         simp [step, hso3] at hf)

/-- witness for C10: the heartbeat timer set but no socket — the
callback fires, sends nothing. -/
theorem C10_timer_send_guard_witness :
    socketOpen { initState with heartbeatInterval := true } = false ∧
    (step { initState with heartbeatInterval := true } Event.heartbeatFire).2 = [] :=
  ⟨rfl,
   (C10_timer_send_guard { initState with heartbeatInterval := true }
      Event.heartbeatFire (Or.inl rfl)).1 rfl⟩

end ShipControl
